import Mathlib

set_option maxRecDepth 100000

/-!
Verification development for the f1gpt retrieval-augmented chat service.

The definitions below are a shallow embedding of the chat route
(`app/api/chat/route.ts`, first variant: HuggingFace embedding + Mixtral
generation with the 0.7 similarity floor) and of the client page component
(`Home`: `handleInputChange`, `handleSubmit` and the server-event applier).

Modelling conventions:
* JavaScript dynamic values reaching `ensureFlatNumberArray` are modelled by
  the inductive `JSVal`; objects are modelled through their `data` property,
  the only property the code reads.
* Similarity scores and vector entries are rationals (the comparisons the
  code performs are exact at the constants involved).
* The external gateways (HuggingFace feature extraction, Astra vector search,
  HuggingFace text-generation stream) are parameters of type `Gateways`;
  a fallible call returns `Except String`.
* The ambient clock is a parameter `Clock`: `nowString` is the value
  `formatUTCDateTime()` produced at request entry, `tick n` is the value of
  the n-th `Date.now()` sample taken while emitting stream events (also
  standing in for the `new Date()` taken at the same instant).
* The SSE channel is a `Channel`: a list of written frames plus a count of
  `writer.close()` calls.  Channel writes and the close are modelled as
  non-failing; generation may fail after yielding any prefix of increments
  (`GenOutcome.fails`).
-/

/-- Dynamic JavaScript value as seen by `ensureFlatNumberArray`; `obj d`
models a non-array object through its (optional) `data` property. -/
inductive JSVal where
  | num (q : ℚ)
  | str (s : String)
  | boolean (b : Bool)
  | nullv
  | arr (elems : List JSVal)
  | obj (data : Option JSVal)

/-- JavaScript truthiness for the modelled values. -/
def truthy : JSVal → Bool
  | JSVal.num q => decide (q ≠ 0)
  | JSVal.str s => decide (s ≠ "")
  | JSVal.boolean b => b
  | JSVal.nullv => false
  | JSVal.arr _ => true
  | JSVal.obj _ => true

/-- Shallow embedding of `ensureFlatNumberArray` (route.ts lines 39-57):
falsy input throws; an array whose first element is not an array is returned
as-is; an array whose first element is an array returns that first element;
an object whose `data` is an array returns it; anything else throws. -/
def ensureFlatNumberArray (input : JSVal) : Except String (List JSVal) :=
  if truthy input = false then Except.error "No embedding received"
  else
    match input with
    | JSVal.arr es =>
      match es.head? with
      | some (JSVal.arr row) => Except.ok row
      | _ => Except.ok es
    | JSVal.obj (some (JSVal.arr ds)) => Except.ok ds
    | _ => Except.error "Invalid embedding format received"

/-- A list of JS values is a flat numeric vector when every element is a
number. -/
def isNumVec (l : List JSVal) : Bool :=
  l.all fun v => match v with
    | JSVal.num _ => true
    | _ => false

/-- Modelled from the claim wording: the "flat numeric array" accepted shape. -/
def isFlatNumericShape : JSVal → Bool
  | JSVal.arr es => isNumVec es
  | _ => false

/-- Modelled from the claim wording: the "nested single-row array" accepted
shape. -/
def isNestedSingleRowShape : JSVal → Bool
  | JSVal.arr [JSVal.arr row] => isNumVec row
  | _ => false

/-- Modelled from the claim wording: the "object exposing a numeric data
array" accepted shape. -/
def isDataObjectShape : JSVal → Bool
  | JSVal.obj (some (JSVal.arr ds)) => isNumVec ds
  | _ => false

/-- A document returned by the vector store: `text` and `$similarity` may
each be absent. -/
structure Doc where
  text : Option String
  sim : Option ℚ
deriving DecidableEq

/-- A retrieved passage as built by the route (`content`, `similarity`,
1-based `index`). -/
structure Passage where
  content : String
  similarity : ℚ
  index : Nat
deriving DecidableEq

/-- The filter predicate `doc.$similarity && doc.$similarity > 0.7`
(truthiness of the score, then the strict comparison). -/
def simPasses (d : Doc) : Bool :=
  match d.sim with
  | none => false
  | some s => decide (s ≠ 0) && decide ((7 : ℚ)/10 < s)

/-- The `relevantDocuments` computation (route.ts lines 105-111): filter by
`simPasses`, then map with the 1-based position in the filtered list. -/
def relevantDocsOf (results : List Doc) : List Passage :=
  (results.filter simPasses).enum.map fun p =>
    { content := p.2.text.getD ""
      similarity := p.2.sim.getD 0
      index := p.1 + 1 }

/-- The `formattedContext` computation (route.ts lines 120-122). -/
def formattedContext (rel : List Passage) : String :=
  if rel.length > 0 then String.intercalate "\n\n" (rel.map Passage.content)
  else "No relevant documents found."

/-- Outcome of driving the text-generation stream: the increments yielded,
and whether the stream then throws instead of ending gracefully. -/
structure GenOutcome where
  incs : List String
  fails : Bool

/-- The external gateways, fixed for the lifetime of the process. -/
structure Gateways where
  featureExtraction : String → Except String JSVal
  search : List JSVal → Nat → Bool → Except String (List Doc)
  textGeneration : String → GenOutcome

/-- Body of the retrieval `try` block (route.ts lines 76-113): embed the
query, normalize, reject a vector whose length is not 1024, search with
limit 5 and `includeSimilarity`, filter and rank. -/
def retrieveTry (gw : Gateways) (query : String) : Except String (List Passage) :=
  match gw.featureExtraction query with
  | Except.error e => Except.error e
  | Except.ok rawEmbedding =>
    match ensureFlatNumberArray rawEmbedding with
    | Except.error e => Except.error e
    | Except.ok embedding =>
      if embedding.length ≠ 1024 then
        Except.error ("Invalid embedding dimension: " ++ toString embedding.length)
      else
        match gw.search embedding 5 true with
        | Except.error e => Except.error e
        | Except.ok results => Except.ok (relevantDocsOf results)

/-- The retrieval step including its `catch` (route.ts lines 115-118): any
failure degrades to the empty passage list. -/
def retrieve (gw : Gateways) (query : String) : List Passage :=
  match retrieveTry gw query with
  | Except.ok rel => rel
  | Except.error _ => []

/-- The `systemPrompt` template (route.ts lines 142-156) as a function of the
request timestamp, the formatted context and the latest user message. -/
def systemPrompt (currentDateTime : String) (ctx : String) (latestMessage : String) : String :=
  "You are F1GPT, a Formula 1 expert assistant. Current date: " ++ currentDateTime ++ " UTC.\n" ++
  "CRITICAL RULES:\n" ++
  "- Only use the context provided below. Do not add any details that are not present.\n" ++
  "- If the context does not include the answer, respond with \"I don\x27t have enough information to answer that question\".\n" ++
  "- DO NOT reference events after the current date (" ++ currentDateTime ++ ") unless they are explicitly in the context.\n" ++
  "- Do not speculate or provide information about events not covered in the context.\n" ++
  "- Provide only factual answers and DO NOT include any disclaimers in your output.\n" ++
  "- Add emojis only when required, do not add it always.\n" ++
  "\n" ++
  "Context:\n" ++ ctx ++ "\n" ++
  "\n" ++
  "Question: " ++ latestMessage ++ "\n" ++
  "\nYour response:"

/-- The `[INST] ... [/INST]` wrapping applied to the prompt at the
text-generation call (route.ts line 160). -/
def instWrap (p : String) : String :=
  "[INST]" ++ p ++ "[/INST]"

/-- JavaScript `String.prototype.trim`, modelled over the character list:
drop leading and trailing whitespace. -/
def jsTrim (s : String) : String :=
  String.mk (((s.data.dropWhile Char.isWhitespace).reverse.dropWhile Char.isWhitespace).reverse)

/-- The end-of-sequence marker stripped from the accumulator. -/
def eosMark : String := "</s>"

/-- The `accumulatedContent.replace(/<\/s>$/, '')` step: drop one trailing
end-of-sequence marker if present (modelled over the character list). -/
def stripTrailingEOS (s : String) : String :=
  if eosMark.data.isSuffixOf s.data then
    String.mk (s.data.take (s.data.length - eosMark.length))
  else s

/-- Contents of the events emitted by the streaming loop (route.ts lines
170-185), given the increments and the current accumulator: increments with
empty `token.text` are skipped; otherwise the increment is appended, a
trailing end-of-sequence marker is stripped (persistently), and the content
emitted is the accumulator trimmed of surrounding whitespace. -/
def emitLoop : List String → String → List String
  | [], _ => []
  | t :: rest, acc =>
    if t = "" then emitLoop rest acc
    else
      let acc1 := stripTrailingEOS (acc ++ t)
      jsTrim acc1 :: emitLoop rest acc1

/-- The accumulator value after each processed (non-empty) increment. -/
def accStates : List String → String → List String
  | [], _ => []
  | t :: rest, acc =>
    if t = "" then accStates rest acc
    else
      let acc1 := stripTrailingEOS (acc ++ t)
      acc1 :: accStates rest acc1

/-- Modelled from the claim wording, for comparison with `emitLoop`: every
increment emits one event whose content is the full accumulated text with a
trailing end-of-sequence marker stripped (no trimming, no skipping of empty
increments). -/
def claimEmits : List String → String → List String
  | [], _ => []
  | t :: rest, acc =>
    let acc1 := stripTrailingEOS (acc ++ t)
    acc1 :: claimEmits rest acc1

/-- The ambient clock: `nowString` is the `formatUTCDateTime()` value taken
at request entry, `tick n` the n-th `Date.now()` sample taken while emitting
events (also standing in for the simultaneous `new Date()`). -/
structure Clock where
  nowString : String
  tick : Nat → Nat

/-- A streamed assistant-message event as serialized into a `data:` frame. -/
structure EventMsg where
  id : String
  role : String
  content : String
  createdAtMs : Nat
  timestamp : String
  user : String
deriving DecidableEq

/-- One SSE frame: either a JSON event or the terminal `[DONE]` sentinel. -/
inductive Frame where
  | data (e : EventMsg)
  | doneMark
deriving DecidableEq

/-- The SSE channel: frames written so far, and how many times the writer
has been closed. -/
structure Channel where
  frames : List Frame
  closes : Nat
deriving DecidableEq

/-- A channel with nothing written and the writer still open. -/
def chanInit : Channel := { frames := [], closes := 0 }

/-- Append one frame to the channel. -/
def writeFrame (ch : Channel) (f : Frame) : Channel :=
  { ch with frames := ch.frames ++ [f] }

/-- Close the writer once more. -/
def closeChan (ch : Channel) : Channel :=
  { ch with closes := ch.closes + 1 }

/-- Build the event emitted at sample index `n` with the given content. -/
def mkEvent (c : Clock) (user : String) (n : Nat) (content : String) : EventMsg :=
  { id := toString (c.tick n)
    role := "assistant"
    content := content
    createdAtMs := c.tick n
    timestamp := c.nowString
    user := user }

/-- The fixed user-facing apology written by the streaming `catch`
(route.ts line 193). -/
def apologyMsg : String := "Sorry, there was an error processing your request"

/-- The data frames for the streaming-loop contents, numbered from sample
index 1 (index 0 is the seed event). -/
def contentFrames (c : Clock) (user : String) (contents : List String) : List Frame :=
  contents.enum.map fun p => Frame.data (mkEvent c user (p.1 + 1) p.2)

/-- The `try` block of the streaming worker (route.ts lines 129-187): write
the seed event (empty content), write one event per non-empty increment,
then either write the `[DONE]` sentinel (graceful end) or raise (generation
failure, returning the channel as written so far). -/
def streamTry (c : Clock) (user : String) (g : GenOutcome) (ch : Channel) :
    Except Channel Channel :=
  let ch1 := writeFrame ch (Frame.data (mkEvent c user 0 ""))
  let ch2 := (contentFrames c user (emitLoop g.incs "")).foldl writeFrame ch1
  if g.fails then Except.error ch2
  else Except.ok (writeFrame ch2 Frame.doneMark)

/-- The whole streaming worker with its `catch` (write one apology event)
and `finally` (close the writer) (route.ts lines 128-201). -/
def streamRun (c : Clock) (user : String) (g : GenOutcome) (ch : Channel) : Channel :=
  closeChan (match streamTry c user g ch with
    | Except.ok ch2 => ch2
    | Except.error ch2 =>
      writeFrame ch2 (Frame.data (mkEvent c user ((emitLoop g.incs "").length + 1) apologyMsg)))

/-- A message in the request body; the server reads only `content` of the
last one. -/
structure ChatMsg where
  id : String
  role : String
  content : String
deriving DecidableEq

/-- The `messages[messages.length - 1]?.content` read, with JavaScript
falsiness folding the missing case into the empty string. -/
def latestContent (messages : List ChatMsg) : String :=
  ((messages.getLast?).map ChatMsg.content).getD ""

/-- Result of the POST handler: the early 500 JSON error, or the streamed
response (frames plus writer-close count). -/
inductive ServeResult where
  | errorResponse (details : String)
  | stream (frames : List Frame) (closes : Nat)
deriving DecidableEq

/-- The POST handler after body destructuring (route.ts lines 67-222):
reject a missing/empty latest message, otherwise retrieve (absorbing
failures), build the prompt, and run the streaming worker on the
generation outcome. -/
def serveParsed (gw : Gateways) (c : Clock) (latestMessage : String) (user : String) :
    ServeResult :=
  if latestMessage = "" then ServeResult.errorResponse "No user message found"
  else
    ServeResult.stream
      (streamRun c user
        (gw.textGeneration (instWrap (systemPrompt c.nowString
          (formattedContext (retrieve gw latestMessage)) latestMessage)))
        chanInit).frames
      (streamRun c user
        (gw.textGeneration (instWrap (systemPrompt c.nowString
          (formattedContext (retrieve gw latestMessage)) latestMessage)))
        chanInit).closes

/-- The POST handler (route.ts line 62): destructure `messages` and the
optional `user` (default `iceheadcoder`), then serve. -/
def serve (gw : Gateways) (c : Clock) (messages : List ChatMsg) (user? : Option String) :
    ServeResult :=
  serveParsed gw c (latestContent messages) (user?.getD "iceheadcoder")

/-- Simplified textual rendering of one frame (JSON string escaping elided;
the `createdAt` date is rendered through its millisecond value). -/
def frameText : Frame → String
  | Frame.data e =>
    "data: \x7b\"id\":\"" ++ e.id ++ "\",\"role\":\"" ++ e.role ++
    "\",\"content\":\"" ++ e.content ++ "\",\"createdAt\":\"" ++
    toString e.createdAtMs ++ "\",\"timestamp\":\"" ++ e.timestamp ++
    "\",\"user\":\"" ++ e.user ++ "\"\x7d\n\n"
  | Frame.doneMark => "data: [DONE]\n\n"

/-- The bytes of a streamed response body. -/
def streamBytes (frames : List Frame) : String :=
  String.join (frames.map frameText)

/-- The frames of a serve result (empty for the non-stream error path). -/
def framesOf : ServeResult → List Frame
  | ServeResult.stream fs _ => fs
  | ServeResult.errorResponse _ => []

/-- A client-side message (`Message` interface in the page component); the
creation date is carried as its millisecond value. -/
structure ClientMessage where
  id : String
  role : String
  content : String
  createdAtMs : Nat
deriving DecidableEq

/-- The `setMessages` updater run for each parsed server event (page
component lines 304-318): if the last message is an assistant message its
content is replaced in place (id and other fields kept), otherwise the
parsed message is appended. -/
def applyServerEvent (prev : List ClientMessage) (parsed : ClientMessage) : List ClientMessage :=
  match prev.getLast? with
  | some lastMessage =>
    if lastMessage.role = "assistant" then
      prev.dropLast ++ [{ lastMessage with content := parsed.content }]
    else prev ++ [parsed]
  | none => prev ++ [parsed]

/-- Content of the last event of the sequence `e :: rest`. -/
def lastEventContent (e : ClientMessage) (rest : List ClientMessage) : String :=
  match rest with
  | [] => e.content
  | x :: rs => lastEventContent x rs

/-- The client state read by `handleSubmit`: the message log, the input
field, and the loading flag. -/
structure ClientState where
  messages : List ClientMessage
  input : String
  isLoading : Bool
deriving DecidableEq

/-- The input length cap enforced by the client. -/
def MAX_INPUT_LENGTH : Nat := 1000

/-- The `handleInputChange` handler: the field is updated only when the new
value is within the cap. -/
def handleInputChange (st : ClientState) (value : String) : ClientState :=
  if value.length ≤ MAX_INPUT_LENGTH then { st with input := value } else st

/-- Outcome of `handleSubmit` up to the network call: either an early return
leaving the state untouched, or the optimistically-updated state together
with the message list sent as the request body. -/
inductive SubmitResult where
  | rejected (st : ClientState)
  | accepted (st : ClientState) (sentMessages : List ClientMessage)
deriving DecidableEq

/-- The user message created by an accepted submission (`createMessage` with
the trimmed input; the id is the `Date.now()` value as a string). -/
def newUserMessage (st : ClientState) (nowMs : Nat) : ClientMessage :=
  { id := toString nowMs, role := "user", content := jsTrim st.input, createdAtMs := nowMs }

/-- The guard and optimistic update of `handleSubmit` (page component lines
240-267): trim the input; return early when it is empty, a submission is in
flight, or the trimmed length exceeds the cap; otherwise set the loading
flag, append the user message, clear the field, and send the full log
including the new message. -/
def handleSubmit (st : ClientState) (nowMs : Nat) : SubmitResult :=
  let trimmedInput := jsTrim st.input
  if trimmedInput = "" ∨ st.isLoading = true ∨ MAX_INPUT_LENGTH < trimmedInput.length then
    SubmitResult.rejected st
  else
    let userMessage := newUserMessage st nowMs
    SubmitResult.accepted
      { messages := st.messages ++ [userMessage], input := "", isLoading := true }
      (st.messages ++ [userMessage])

/-- A string of `n` copies of the letter a. -/
def strA (n : Nat) : String := String.mk (List.replicate n 'a')

/-- Deterministic gateways whose embedding call fails. -/
def gwDet : Gateways :=
  { featureExtraction := fun _ => Except.error "offline"
    search := fun _ _ _ => Except.ok []
    textGeneration := fun _ => { incs := ["Hi"], fails := false } }

/-- Deterministic gateways with a valid 1024-entry embedding and an empty
search result. -/
def gwEmpty : Gateways :=
  { featureExtraction := fun _ => Except.ok (JSVal.arr (List.replicate 1024 (JSVal.num 1)))
    search := fun _ _ _ => Except.ok []
    textGeneration := fun _ => { incs := [], fails := false } }

/-- Deterministic gateways whose embedding call returns a 1-entry vector. -/
def gwShort : Gateways :=
  { featureExtraction := fun _ => Except.ok (JSVal.arr [JSVal.num 1])
    search := fun _ _ _ => Except.ok []
    textGeneration := fun _ => { incs := [], fails := false } }

/-- Gateways used to exercise dependence on the top-5 search call only:
searches with a limit other than 5 fail. -/
def gwTopOnly : Gateways :=
  { featureExtraction := fun _ => Except.ok (JSVal.arr (List.replicate 1024 (JSVal.num 1)))
    search := fun _ k _ => if k = 5 then Except.ok [] else Except.error "unexpected limit"
    textGeneration := fun _ => { incs := [], fails := false } }

/-- A concrete clock whose samples are the sample indices. -/
def c0 : Clock := { nowString := "2025-01-01 00:00:00", tick := fun n => n }

/-- A clock frozen at millisecond 0. -/
def cA : Clock := { nowString := "2025-01-01 00:00:00", tick := fun _ => 0 }

/-- A clock frozen at millisecond 1, with the same formatted timestamp as
`cA`. -/
def cB : Clock := { nowString := "2025-01-01 00:00:00", tick := fun _ => 1 }

/-- A one-message request body. -/
def msgs0 : List ChatMsg := [{ id := "1", role := "user", content := "hi" }]

/-- A heterogeneous array: not a flat numeric array, not a nested single-row
array, not a data object. -/
def badEmbedding : JSVal := JSVal.arr [JSVal.num 1, JSVal.arr [JSVal.num 2]]

/-- The two-passage search result of the claimed scenario (similarities 0.82
and 0.65). -/
def scenarioDocs : List Doc :=
  [{ text := some "A", sim := some (82/100) }, { text := some "B", sim := some (65/100) }]

/-- Folding `writeFrame` appends the frames in order and leaves the close
count unchanged. -/
theorem foldl_writeFrame (fs : List Frame) (ch : Channel) :
    fs.foldl writeFrame ch = { frames := ch.frames ++ fs, closes := ch.closes } := by
  induction fs generalizing ch with
  | nil => simp
  | cons f fs ih => simp [List.foldl_cons, writeFrame, ih]

/-- Closed form of one streaming-worker run: the seed event, one frame per
emitted content, then either the terminal sentinel or the single apology
event, with the writer closed exactly once more. -/
theorem streamRun_eq (c : Clock) (u : String) (g : GenOutcome) (ch : Channel) :
    streamRun c u g ch =
      { frames := ch.frames ++ Frame.data (mkEvent c u 0 "") ::
          (contentFrames c u (emitLoop g.incs "") ++
            (if g.fails then
              [Frame.data (mkEvent c u ((emitLoop g.incs "").length + 1) apologyMsg)]
            else [Frame.doneMark]))
        closes := ch.closes + 1 } := by
  cases hf : g.fails <;>
    simp [streamRun, streamTry, foldl_writeFrame, writeFrame, closeChan, hf]

/-- The emitted contents are the accumulator states, each trimmed. -/
theorem emitLoop_eq_map_trim (incs : List String) (acc : String) :
    emitLoop incs acc = (accStates incs acc).map jsTrim := by
  induction incs generalizing acc with
  | nil => rfl
  | cons t rest ih =>
    by_cases h : t = "" <;> simp [emitLoop, accStates, h, ih]

/-- One content is emitted per increment with non-empty text. -/
theorem emitLoop_length (incs : List String) (acc : String) :
    (emitLoop incs acc).length = (incs.filter fun t => decide (t ≠ "")).length := by
  induction incs generalizing acc with
  | nil => rfl
  | cons t rest ih =>
    by_cases h : t = "" <;> simp [emitLoop, List.filter_cons, h, ih]

/-- Pairwise order on a list transfers to the second components of its
enumeration. -/
theorem pairwise_enum_snd {α : Type} {S : α → α → Prop} {l : List α}
    (h : l.Pairwise S) : l.enum.Pairwise fun p q => S p.2 q.2 := by
  have h2 : (l.enum.map Prod.snd).Pairwise S := by rwa [List.enum_map_snd]
  exact List.pairwise_map.mp h2

/-- The similarity filter coincides with the plain strict comparison against
the 0.7 floor (the truthiness conjunct is redundant). -/
theorem simPasses_eq (d : Doc) :
    simPasses d = decide ((7 : ℚ)/10 < d.sim.getD 0) := by
  cases hs : d.sim with
  | none =>
    simp only [simPasses, hs, Option.getD_none]
    rw [decide_eq_false (by norm_num)]
  | some s =>
    simp only [simPasses, hs, Option.getD_some]
    by_cases h : (7 : ℚ)/10 < s
    · rw [decide_eq_true h,
        decide_eq_true (show s ≠ 0 by intro h0; rw [h0] at h; norm_num at h)]
      simp
    · rw [decide_eq_false h]
      simp

/-- Surviving passages keep the store's descending-similarity order. -/
theorem relevantDocsOf_sorted (results : List Doc)
    (h : results.Pairwise fun a b => a.sim.getD 0 ≥ b.sim.getD 0) :
    (relevantDocsOf results).Pairwise fun p q => p.similarity ≥ q.similarity := by
  have hf : (results.filter simPasses).Pairwise fun a b => a.sim.getD 0 ≥ b.sim.getD 0 :=
    List.Pairwise.sublist (List.filter_sublist results) h
  have he := pairwise_enum_snd hf
  exact List.pairwise_map.mpr he

/-- Ranks are the 1-based positions in the filtered list. -/
theorem relevantDocsOf_ranks (results : List Doc) :
    (relevantDocsOf results).map Passage.index =
      (List.range (results.filter simPasses).length).map (fun n => n + 1) := by
  unfold relevantDocsOf
  rw [List.map_map]
  have hcomp :
      (Passage.index ∘ fun p : Nat × Doc =>
        ({ content := p.2.text.getD "", similarity := p.2.sim.getD 0, index := p.1 + 1 } : Passage))
        = (fun n => n + 1) ∘ Prod.fst := rfl
  rw [hcomp, ← List.map_map, List.enum_map_fst]

/-- Passage contents are the (defaulted) texts of the surviving documents in
order. -/
theorem relevantDocsOf_contents (results : List Doc) :
    (relevantDocsOf results).map Passage.content =
      (results.filter simPasses).map (fun d => d.text.getD "") := by
  unfold relevantDocsOf
  rw [List.map_map]
  have hcomp :
      (Passage.content ∘ fun p : Nat × Doc =>
        ({ content := p.2.text.getD "", similarity := p.2.sim.getD 0, index := p.1 + 1 } : Passage))
        = (fun d => d.text.getD "") ∘ Prod.snd := rfl
  rw [hcomp, ← List.map_map, List.enum_map_snd]

/-- The content of the last of `e :: rest` only looks past `e` when `rest`
is non-empty. -/
theorem lastEventContent_cons (e x : ClientMessage) (rs : List ClientMessage) :
    lastEventContent e (x :: rs) = lastEventContent x rs := rfl

/-- The content of the last event depends on the head only through its
content. -/
theorem lastEventContent_congr (a b : ClientMessage) (rs : List ClientMessage)
    (h : a.content = b.content) : lastEventContent a rs = lastEventContent b rs := by
  cases rs <;> simp [lastEventContent, h]

/-- Applying a sequence of events to a log ending in an assistant message
repeatedly replaces that message's content in place. -/
theorem foldl_apply_assistant (rest : List ClientMessage) (pre : List ClientMessage)
    (m : ClientMessage) (hm : m.role = "assistant") :
    List.foldl applyServerEvent (pre ++ [m]) rest =
      pre ++ [{ m with content := lastEventContent m rest }] := by
  induction rest generalizing m with
  | nil => simp [lastEventContent]
  | cons x rs ih =>
    rw [List.foldl_cons]
    have happ : applyServerEvent (pre ++ [m]) x = pre ++ [{ m with content := x.content }] := by
      simp [applyServerEvent, List.getLast?_concat, hm, List.dropLast_concat]
    rw [happ, ih { m with content := x.content } hm, lastEventContent_cons,
      lastEventContent_congr { m with content := x.content } x rs rfl]

/-- C1: any failure during embedding or vector search is caught inside the
retrieval step and never escapes: the request proceeds with an empty passage
list and the sentinel context string, and the language-model phase is still
attempted (the handler returns a streamed response driven by the generation
gateway on the sentinel-context prompt). -/
theorem C1_retrieval_failure_absorbed (gw : Gateways) (c : Clock) (msgs : List ChatMsg)
    (u : Option String) (e : String)
    (hmsg : latestContent msgs ≠ "")
    (hfail : retrieveTry gw (latestContent msgs) = Except.error e) :
    retrieve gw (latestContent msgs) = [] ∧
    formattedContext (retrieve gw (latestContent msgs)) = "No relevant documents found." ∧
    serve gw c msgs u =
      ServeResult.stream
        (streamRun c (u.getD "iceheadcoder")
          (gw.textGeneration (instWrap (systemPrompt c.nowString
            "No relevant documents found." (latestContent msgs)))) chanInit).frames
        (streamRun c (u.getD "iceheadcoder")
          (gw.textGeneration (instWrap (systemPrompt c.nowString
            "No relevant documents found." (latestContent msgs)))) chanInit).closes := by
  have h1 : retrieve gw (latestContent msgs) = [] := by
    simp [retrieve, hfail]
  refine ⟨h1, by rw [h1]; rfl, ?_⟩
  simp only [serve, serveParsed, hmsg, if_neg hmsg, h1]
  rfl

/-- C1 witness: a concrete run whose embedding gateway is down still streams. -/
theorem C1_witness :
    retrieve gwDet (latestContent msgs0) = [] ∧
    formattedContext (retrieve gwDet (latestContent msgs0)) = "No relevant documents found." ∧
    serve gwDet c0 msgs0 none =
      ServeResult.stream
        (streamRun c0 ((none : Option String).getD "iceheadcoder")
          (gwDet.textGeneration (instWrap (systemPrompt c0.nowString
            "No relevant documents found." (latestContent msgs0)))) chanInit).frames
        (streamRun c0 ((none : Option String).getD "iceheadcoder")
          (gwDet.textGeneration (instWrap (systemPrompt c0.nowString
            "No relevant documents found." (latestContent msgs0)))) chanInit).closes :=
  C1_retrieval_failure_absorbed gwDet c0 msgs0 none "offline" (by decide) rfl

/-- C2 counterexample: the claim predicts that each increment produces one
event carrying the full accumulated content (end marker stripped); the code
instead trims surrounding whitespace from the emitted content and skips
increments with empty text, so on the single increment " Max" the emitted
content is "Max", not " Max", and an empty increment emits nothing. -/
theorem C2_counterexample :
    emitLoop [" Max"] "" = ["Max"] ∧
    claimEmits [" Max"] "" = [" Max"] ∧
    emitLoop [" Max"] "" ≠ claimEmits [" Max"] "" ∧
    emitLoop [""] "" = [] ∧
    claimEmits [""] "" = [""] := by
  refine ⟨rfl, rfl, by decide, rfl, rfl⟩

/-- C2 amended: a run of the streaming encoder emits first the seed event
with empty content, then one event per increment with non-empty text whose
content is the accumulated text (trailing end-of-sequence marker stripped,
surrounding whitespace trimmed), then on graceful exhaustion the terminal
sentinel, and the channel is closed; the increments
["Max", " Verstappen", "."] yield exactly the contents
"Max", "Max Verstappen", "Max Verstappen.". -/
theorem C2_amended (c : Clock) (u : String) (incs : List String) :
    (streamRun c u { incs := incs, fails := false } chanInit).frames =
      Frame.data (mkEvent c u 0 "") ::
        (contentFrames c u (emitLoop incs "") ++ [Frame.doneMark]) ∧
    (streamRun c u { incs := incs, fails := false } chanInit).closes = 1 ∧
    emitLoop ["Max", " Verstappen", "."] "" = ["Max", "Max Verstappen", "Max Verstappen."] := by
  refine ⟨?_, ?_, by decide⟩
  · rw [streamRun_eq]
    simp [chanInit]
  · rw [streamRun_eq]
    rfl

/-- C3: on every exit path the writer is closed exactly once more, and on a
generation failure exactly one replacement event carrying the fixed apology
is written after the seed and content events, immediately before the close. -/
theorem C3_close_once_apology (c : Clock) (u : String) (g : GenOutcome) (ch : Channel) :
    (streamRun c u g ch).closes = ch.closes + 1 ∧
    apologyMsg = "Sorry, there was an error processing your request" ∧
    (g.fails = true →
      (streamRun c u g ch).frames =
        ch.frames ++ Frame.data (mkEvent c u 0 "") ::
          (contentFrames c u (emitLoop g.incs "") ++
            [Frame.data (mkEvent c u ((emitLoop g.incs "").length + 1) apologyMsg)])) := by
  refine ⟨by rw [streamRun_eq], rfl, fun hf => ?_⟩
  rw [streamRun_eq]
  simp [hf]

/-- C3 witness: a concrete failing generation run closes once and ends with
the single apology event. -/
theorem C3_witness :
    (streamRun c0 "iceheadcoder" { incs := ["Max"], fails := true } chanInit).closes =
      chanInit.closes + 1 ∧
    (streamRun c0 "iceheadcoder" { incs := ["Max"], fails := true } chanInit).frames =
      chanInit.frames ++ Frame.data (mkEvent c0 "iceheadcoder" 0 "") ::
        (contentFrames c0 "iceheadcoder" (emitLoop ["Max"] "") ++
          [Frame.data (mkEvent c0 "iceheadcoder" ((emitLoop ["Max"] "").length + 1) apologyMsg)]) :=
  ⟨(C3_close_once_apology c0 "iceheadcoder" { incs := ["Max"], fails := true } chanInit).1,
    (C3_close_once_apology c0 "iceheadcoder" { incs := ["Max"], fails := true } chanInit).2.2 rfl⟩

/-- C10: the streaming loop emits one content event per increment with
non-empty text (empty increments are skipped), and every emitted content is
the corresponding accumulator state trimmed of surrounding whitespace. -/
theorem C10_emit_nonempty_trimmed (incs : List String) :
    (emitLoop incs "").length = (incs.filter fun t => decide (t ≠ "")).length ∧
    emitLoop incs "" = (accStates incs "").map jsTrim :=
  ⟨emitLoop_length incs "", emitLoop_eq_map_trim incs ""⟩

/-- C4 counterexample: when no passage survives filtering, the context string
the code produces is "No relevant documents found.", not the claimed
sentinel "no relevant documents found". -/
theorem C4_counterexample :
    formattedContext (retrieve gwEmpty "Who won the 2024 championship?") =
      "No relevant documents found." ∧
    formattedContext (retrieve gwEmpty "Who won the 2024 championship?") ≠
      "no relevant documents found" := by
  refine ⟨by decide, by decide⟩

/-- C4 amended: on the successful retrieval path the assembler requests the
top 5 most similar passages (its result depends on the search gateway only
through limit-5 queries), keeps exactly those with similarity strictly
greater than 0.7 in descending similarity order with 1-based ranks, and the
context string is the surviving contents joined by a double newline, or the
fixed sentinel "No relevant documents found." when no passage survives; two
passages at similarities 0.82 and 0.65 yield exactly the 0.82 passage. -/
theorem C4_amended :
    (∀ results : List Doc,
      results.Pairwise (fun a b => a.sim.getD 0 ≥ b.sim.getD 0) →
        (relevantDocsOf results).Pairwise fun p q => p.similarity ≥ q.similarity) ∧
    (∀ results : List Doc,
      results.filter simPasses = results.filter fun d => decide ((7 : ℚ)/10 < d.sim.getD 0)) ∧
    (∀ results : List Doc,
      (relevantDocsOf results).map Passage.index =
        (List.range (results.filter simPasses).length).map fun n => n + 1) ∧
    (∀ results : List Doc,
      (relevantDocsOf results).map Passage.content =
        (results.filter simPasses).map fun d => d.text.getD "") ∧
    (∀ rel : List Passage,
      formattedContext rel =
        if rel.length > 0 then String.intercalate "\n\n" (rel.map Passage.content)
        else "No relevant documents found.") ∧
    (∀ gw gw' : Gateways, ∀ q : String,
      gw.featureExtraction = gw'.featureExtraction →
      (∀ v, gw.search v 5 true = gw'.search v 5 true) →
      retrieveTry gw q = retrieveTry gw' q) ∧
    relevantDocsOf scenarioDocs = [{ content := "A", similarity := 82/100, index := 1 }] := by
  refine ⟨relevantDocsOf_sorted, ?_, relevantDocsOf_ranks, relevantDocsOf_contents,
    fun rel => rfl, ?_, ?_⟩
  · intro results
    exact List.filter_congr fun d _ => simPasses_eq d
  · intro gw gw' q hFE hS
    unfold retrieveTry
    rw [hFE]
    cases hraw : gw'.featureExtraction q with
    | error e => rfl
    | ok raw =>
      cases hemb : ensureFlatNumberArray raw with
      | error e => simp [hemb]
      | ok emb =>
        by_cases hl : emb.length = 1024
        · simp [hemb, hl, hS emb]
        · simp [hemb, hl]
  · norm_num [relevantDocsOf, scenarioDocs, simPasses, List.filter, List.enum, List.enumFrom]

/-- C4 witness: the order, rank and top-5 parts instantiated at concrete
inputs. -/
theorem C4_witness :
    (relevantDocsOf scenarioDocs).Pairwise (fun p q => p.similarity ≥ q.similarity) ∧
    retrieveTry gwEmpty "q" = retrieveTry gwTopOnly "q" :=
  ⟨C4_amended.1 scenarioDocs (by
      norm_num [scenarioDocs]),
    C4_amended.2.2.2.2.2.1 gwEmpty gwTopOnly "q" rfl fun v => rfl⟩

/-- C5 counterexample: the heterogeneous array [1, [2]] is in none of the
three accepted shapes, yet `ensureFlatNumberArray` returns it unchanged (and
the result is not a flat numeric vector) instead of throwing. -/
theorem C5_counterexample :
    ensureFlatNumberArray badEmbedding = Except.ok [JSVal.num 1, JSVal.arr [JSVal.num 2]] ∧
    isFlatNumericShape badEmbedding = false ∧
    isNestedSingleRowShape badEmbedding = false ∧
    isDataObjectShape badEmbedding = false ∧
    isNumVec [JSVal.num 1, JSVal.arr [JSVal.num 2]] = false :=
  ⟨rfl, rfl, rfl, rfl, rfl⟩

/-- C5 amended: inputs are classified by their first element (and by the
`data` property for non-arrays): a truthy array whose first element is not
an array is returned as-is — in particular every flat numeric array yields
itself — an array whose first element is an array returns that first row, a
truthy non-array whose `data` is an array returns it; falsy inputs and
truthy non-arrays without an array `data` throw a typed error (heterogeneous
arrays are returned unvalidated rather than rejected); the retrieval step
treats a normalized vector whose length is not 1024 as a hard error rather
than truncating or padding. -/
theorem C5_amended :
    (∀ es : List JSVal, isNumVec es = true →
      ensureFlatNumberArray (JSVal.arr es) = Except.ok es) ∧
    (∀ row rest, ensureFlatNumberArray (JSVal.arr (JSVal.arr row :: rest)) = Except.ok row) ∧
    (∀ ds, ensureFlatNumberArray (JSVal.obj (some (JSVal.arr ds))) = Except.ok ds) ∧
    (∀ v, truthy v = false →
      ensureFlatNumberArray v = Except.error "No embedding received") ∧
    (∀ v : JSVal, truthy v = true → (∀ es, v ≠ JSVal.arr es) →
      (∀ ds, v ≠ JSVal.obj (some (JSVal.arr ds))) →
      ensureFlatNumberArray v = Except.error "Invalid embedding format received") ∧
    (∀ gw : Gateways, ∀ q raw : _, ∀ emb : List JSVal,
      gw.featureExtraction q = Except.ok raw →
      ensureFlatNumberArray raw = Except.ok emb →
      emb.length ≠ 1024 →
      retrieveTry gw q = Except.error ("Invalid embedding dimension: " ++ toString emb.length)) := by
  refine ⟨?_, fun row rest => rfl, fun ds => rfl, ?_, ?_, ?_⟩
  · intro es h
    match es with
    | [] => rfl
    | v :: rest =>
      match v with
      | JSVal.num q => rfl
      | JSVal.str s => simp [isNumVec] at h
      | JSVal.boolean b => simp [isNumVec] at h
      | JSVal.nullv => simp [isNumVec] at h
      | JSVal.arr es2 => simp [isNumVec] at h
      | JSVal.obj d => simp [isNumVec] at h
  · intro v h
    simp [ensureFlatNumberArray, h]
  · intro v h1 h2 h3
    match v with
    | JSVal.num q => simp [ensureFlatNumberArray, h1]
    | JSVal.str s => simp [ensureFlatNumberArray, h1]
    | JSVal.boolean b => simp [ensureFlatNumberArray, h1]
    | JSVal.nullv => exact absurd h1 (by decide)
    | JSVal.arr es => exact absurd rfl (h2 es)
    | JSVal.obj none => rfl
    | JSVal.obj (some (JSVal.arr ds)) => exact absurd rfl (h3 ds)
    | JSVal.obj (some (JSVal.num q)) => rfl
    | JSVal.obj (some (JSVal.str s)) => rfl
    | JSVal.obj (some (JSVal.boolean b)) => rfl
    | JSVal.obj (some JSVal.nullv) => rfl
    | JSVal.obj (some (JSVal.obj d2)) => rfl
  · intro gw q raw emb hraw hemb hl
    unfold retrieveTry
    rw [hraw]
    simp [hemb, hl]

/-- C5 witness: the three accepted shapes normalized at concrete inputs; a
falsy input, a nonzero number, the boolean true, an object without a data
property and an object whose data is a number all rejected; and a length-1
embedding failing the dimension check. -/
theorem C5_witness :
    ensureFlatNumberArray (JSVal.arr [JSVal.num 1, JSVal.num 2]) =
      Except.ok [JSVal.num 1, JSVal.num 2] ∧
    ensureFlatNumberArray (JSVal.arr [JSVal.arr [JSVal.num 3]]) = Except.ok [JSVal.num 3] ∧
    ensureFlatNumberArray (JSVal.obj (some (JSVal.arr [JSVal.num 4]))) =
      Except.ok [JSVal.num 4] ∧
    ensureFlatNumberArray JSVal.nullv = Except.error "No embedding received" ∧
    ensureFlatNumberArray (JSVal.num 3) = Except.error "Invalid embedding format received" ∧
    ensureFlatNumberArray (JSVal.boolean true) =
      Except.error "Invalid embedding format received" ∧
    ensureFlatNumberArray (JSVal.obj none) =
      Except.error "Invalid embedding format received" ∧
    ensureFlatNumberArray (JSVal.obj (some (JSVal.num 5))) =
      Except.error "Invalid embedding format received" ∧
    retrieveTry gwShort "q" = Except.error ("Invalid embedding dimension: " ++ toString 1) :=
  ⟨C5_amended.1 [JSVal.num 1, JSVal.num 2] rfl,
    C5_amended.2.1 [JSVal.num 3] [],
    C5_amended.2.2.1 [JSVal.num 4],
    C5_amended.2.2.2.1 JSVal.nullv rfl,
    C5_amended.2.2.2.2.1 (JSVal.num 3) (by norm_num [truthy]) (fun _ => nofun) (fun _ => nofun),
    C5_amended.2.2.2.2.1 (JSVal.boolean true) rfl (fun _ => nofun) (fun _ => nofun),
    C5_amended.2.2.2.2.1 (JSVal.obj none) rfl (fun _ => nofun) (fun _ => nofun),
    C5_amended.2.2.2.2.1 (JSVal.obj (some (JSVal.num 5))) rfl (fun _ => nofun)
      (fun _ => by intro h; simp at h),
    C5_amended.2.2.2.2.2 gwShort "q" (JSVal.arr [JSVal.num 1]) [JSVal.num 1] rfl rfl
      (by decide)⟩

/-- C6: applying a non-empty sequence of assistant-role server events to a
log that does not already end in an assistant message appends exactly one
assistant message at the end — the first event's message with its content
replaced in place by the last event's content — leaving the rest of the log
untouched. -/
theorem C6_client_single_assistant (log : List ClientMessage) (e : ClientMessage)
    (rest : List ClientMessage)
    (hlog : ∀ m, log.getLast? = some m → m.role ≠ "assistant")
    (he : e.role = "assistant")
    (_hrest : ∀ x ∈ rest, x.role = "assistant") :
    List.foldl applyServerEvent log (e :: rest) =
      log ++ [{ e with content := lastEventContent e rest }] ∧
    ({ e with content := lastEventContent e rest } : ClientMessage).role = "assistant" := by
  refine ⟨?_, he⟩
  rw [List.foldl_cons]
  have h1 : applyServerEvent log e = log ++ [e] := by
    cases hq : log.getLast? with
    | none => simp [applyServerEvent, hq]
    | some m => simp [applyServerEvent, hq, hlog m hq]
  rw [h1, foldl_apply_assistant rest log e he]

/-- C6 witness: a user-terminated log plus two assistant events yields the
log with one assistant message holding the final content. -/
theorem C6_witness :
    List.foldl applyServerEvent
      [{ id := "u1", role := "user", content := "hi", createdAtMs := 0 }]
      [{ id := "a1", role := "assistant", content := "", createdAtMs := 1 },
        { id := "a2", role := "assistant", content := "Max", createdAtMs := 2 }] =
      [{ id := "u1", role := "user", content := "hi", createdAtMs := 0 }] ++
        [{ id := "a1", role := "assistant",
            content := lastEventContent
              { id := "a1", role := "assistant", content := "", createdAtMs := 1 }
              [{ id := "a2", role := "assistant", content := "Max", createdAtMs := 2 }],
            createdAtMs := 1 }] :=
  (C6_client_single_assistant
    [{ id := "u1", role := "user", content := "hi", createdAtMs := 0 }]
    { id := "a1", role := "assistant", content := "", createdAtMs := 1 }
    [{ id := "a2", role := "assistant", content := "Max", createdAtMs := 2 }]
    (by intro m hm; simp at hm; rw [← hm]; decide)
    rfl
    (by intro x hx; simp at hx; rw [hx])).1

/-- C7 counterexample: an input of 1001 characters whose last character is a
space is accepted by `handleSubmit` (the length check runs on the trimmed
input), refuting "rejects input longer than 1000 characters". -/
theorem C7_counterexample :
    (strA 1000 ++ " ").length = 1001 ∧
    handleSubmit { messages := [], input := strA 1000 ++ " ", isLoading := false } 0 =
      SubmitResult.accepted
        { messages := [{ id := "0", role := "user", content := strA 1000, createdAtMs := 0 }]
          input := ""
          isLoading := true }
        [{ id := "0", role := "user", content := strA 1000, createdAtMs := 0 }] := by
  refine ⟨by decide, by decide⟩

/-- C7 amended: submit rejects input that is empty or whitespace-only after
trimming, rejects input whose trimmed length exceeds 1000 characters before
any network call, and rejects any submission while one is in flight; an
accepted submission appends the trimmed user message, clears the input
field, and sends the full log including the new message; 1000 non-blank
characters are accepted and 1001 are rejected (the input field itself also
refuses values longer than 1000 characters). -/
theorem C7_amended :
    (∀ st : ClientState, ∀ nowMs : Nat, jsTrim st.input = "" →
      handleSubmit st nowMs = SubmitResult.rejected st) ∧
    (∀ st : ClientState, ∀ nowMs : Nat, st.isLoading = true →
      handleSubmit st nowMs = SubmitResult.rejected st) ∧
    (∀ st : ClientState, ∀ nowMs : Nat, MAX_INPUT_LENGTH < (jsTrim st.input).length →
      handleSubmit st nowMs = SubmitResult.rejected st) ∧
    (∀ st : ClientState, ∀ nowMs : Nat,
      jsTrim st.input ≠ "" → st.isLoading = false →
      (jsTrim st.input).length ≤ MAX_INPUT_LENGTH →
      handleSubmit st nowMs = SubmitResult.accepted
        { messages := st.messages ++ [newUserMessage st nowMs]
          input := ""
          isLoading := true }
        (st.messages ++ [newUserMessage st nowMs])) ∧
    (∀ st : ClientState, ∀ value : String, MAX_INPUT_LENGTH < value.length →
      handleInputChange st value = st) ∧
    handleSubmit { messages := [], input := strA 1000, isLoading := false } 0 =
      SubmitResult.accepted
        { messages := [{ id := "0", role := "user", content := strA 1000, createdAtMs := 0 }]
          input := ""
          isLoading := true }
        [{ id := "0", role := "user", content := strA 1000, createdAtMs := 0 }] ∧
    handleSubmit { messages := [], input := strA 1001, isLoading := false } 0 =
      SubmitResult.rejected { messages := [], input := strA 1001, isLoading := false } := by
  refine ⟨?_, ?_, ?_, ?_, ?_, by decide, by decide⟩
  · intro st nowMs h
    simp [handleSubmit, h]
  · intro st nowMs h
    simp [handleSubmit, h]
  · intro st nowMs h
    simp [handleSubmit, Nat.not_le.mpr h]
  · intro st nowMs h1 h2 h3
    rw [handleSubmit]
    rw [if_neg]
    push_neg
    exact ⟨h1, by simp [h2], h3⟩
  · intro st value h
    simp [handleInputChange, Nat.not_le.mpr h]

/-- C7 witness: the rejection and acceptance branches at concrete states. -/
theorem C7_witness :
    handleSubmit { messages := [], input := "   ", isLoading := false } 0 =
      SubmitResult.rejected { messages := [], input := "   ", isLoading := false } ∧
    handleSubmit { messages := [], input := "hi", isLoading := true } 0 =
      SubmitResult.rejected { messages := [], input := "hi", isLoading := true } ∧
    handleSubmit { messages := [], input := "hi", isLoading := false } 7 =
      SubmitResult.accepted
        { messages := [] ++ [newUserMessage { messages := [], input := "hi", isLoading := false } 7]
          input := ""
          isLoading := true }
        ([] ++ [newUserMessage { messages := [], input := "hi", isLoading := false } 7]) ∧
    handleInputChange { messages := [], input := "", isLoading := false } (strA 1001) =
      { messages := [], input := "", isLoading := false } :=
  ⟨C7_amended.1 { messages := [], input := "   ", isLoading := false } 0 (by decide),
    C7_amended.2.1 { messages := [], input := "hi", isLoading := true } 0 rfl,
    C7_amended.2.2.2.1 { messages := [], input := "hi", isLoading := false } 7
      (by decide) rfl (by decide),
    C7_amended.2.2.2.2.1 { messages := [], input := "", isLoading := false } (strA 1001)
      (by decide)⟩

/-- C8 counterexample: with the gateways fixed and the same message list,
two runs at different clock values produce different response bytes (the
events embed `Date.now()`-derived ids and dates), so fixing the gateways
alone does not give byte-identical streams. -/
theorem C8_counterexample :
    streamBytes (framesOf (serve gwDet cA msgs0 none)) ≠
      streamBytes (framesOf (serve gwDet cB msgs0 none)) := by
  decide

/-- C8 amended: with the gateways, the clock and the user field all held
fixed, two runs of the service on the same message list produce identical
event sequences and byte-identical response bodies. -/
theorem C8_amended (gw : Gateways) (c c' : Clock) (msgs msgs' : List ChatMsg)
    (u u' : Option String) (hc : c = c') (hm : msgs = msgs') (hu : u = u') :
    serve gw c msgs u = serve gw c' msgs' u' ∧
    streamBytes (framesOf (serve gw c msgs u)) =
      streamBytes (framesOf (serve gw c' msgs' u')) := by
  subst hc hm hu
  exact ⟨rfl, rfl⟩

/-- C8 witness: two identically-configured runs at a concrete input agree. -/
theorem C8_witness :
    serve gwDet cA msgs0 none = serve gwDet cA msgs0 none ∧
    streamBytes (framesOf (serve gwDet cA msgs0 none)) =
      streamBytes (framesOf (serve gwDet cA msgs0 none)) :=
  C8_amended gwDet cA cA msgs0 msgs0 none none rfl rfl rfl

/-- C9 counterexample: two request bodies with identical message lists but
different `user` fields produce different streamed event sequences (the
events embed the user), so the behaviour does not depend on the last
message's content alone. -/
theorem C9_counterexample :
    serve gwDet c0 msgs0 (some "alice") ≠ serve gwDet c0 msgs0 (some "bob") := by
  decide

/-- C9 amended: with the gateways and clock held fixed, the service's
behaviour depends only on the content of the last element of the submitted
messages array together with the body's `user` field: for equal last
contents and equal users, the retrieval, the prompt built for the model,
and the whole serve result coincide — all earlier messages are ignored. -/
theorem C9_amended (gw : Gateways) (c : Clock) (m1 m2 : List ChatMsg)
    (u1 u2 : Option String)
    (hlast : latestContent m1 = latestContent m2) (hu : u1 = u2) :
    retrieve gw (latestContent m1) = retrieve gw (latestContent m2) ∧
    systemPrompt c.nowString (formattedContext (retrieve gw (latestContent m1)))
        (latestContent m1) =
      systemPrompt c.nowString (formattedContext (retrieve gw (latestContent m2)))
        (latestContent m2) ∧
    serve gw c m1 u1 = serve gw c m2 u2 := by
  subst hu
  refine ⟨by rw [hlast], by rw [hlast], ?_⟩
  rw [serve, serve, hlast]

/-- C9 witness: a one-message body and a two-message body with the same last
content and user are served identically. -/
theorem C9_witness :
    retrieve gwDet (latestContent msgs0) =
      retrieve gwDet (latestContent
        [{ id := "0", role := "assistant", content := "old" }, { id := "1", role := "user", content := "hi" }]) ∧
    systemPrompt c0.nowString (formattedContext (retrieve gwDet (latestContent msgs0)))
        (latestContent msgs0) =
      systemPrompt c0.nowString (formattedContext (retrieve gwDet (latestContent
          [{ id := "0", role := "assistant", content := "old" }, { id := "1", role := "user", content := "hi" }])))
        (latestContent
          [{ id := "0", role := "assistant", content := "old" }, { id := "1", role := "user", content := "hi" }]) ∧
    serve gwDet c0 msgs0 (some "iceheadcoder") =
      serve gwDet c0
        [{ id := "0", role := "assistant", content := "old" }, { id := "1", role := "user", content := "hi" }]
        (some "iceheadcoder") :=
  C9_amended gwDet c0 msgs0
    [{ id := "0", role := "assistant", content := "old" }, { id := "1", role := "user", content := "hi" }]
    (some "iceheadcoder") (some "iceheadcoder") (by decide) rfl
